import Mathlib

/-!
# Verification of the SubstratumNode hop-routing core

A shallow embedding of the hopper's routing and consuming services
(`src/hopper_lib/src/routing_service.rs`, `src/hopper_lib/src/consuming_service.rs`)
and of the discriminator (`src/node/src/discriminator.rs`), together with proofs
of the spec's testable properties about them.

Bytes are modelled as `List Nat`.  The cryptographic backend (`CryptDE`) and
the CBOR codec (`serde_cbor`) are external collaborators of the repository and
are modelled abstractly as records of functions; the `Route` / `Hop` /
`LiveCoresPackage` operations, whose source file is not part of the hopper
sources given here, are modelled from the spec (each such definition says so
in its doc comment).  Actor sends are modelled by accumulating the messages a
service emits into output records; a `panicked` flag records that the Rust
code would have panicked (`unimplemented!` / `expect` failure).
-/

/-- Opaque public key of a peer: an opaque byte string, equality is byte-equal. -/
structure Key where
  data : List Nat
deriving DecidableEq, Repr

/-- The closed tag set of logical sinks inside a node
(`sub_lib::dispatcher::Component`). -/
inductive Component where
  | ProxyServer
  | ProxyClient
  | Neighborhood
  | Hopper
deriving DecidableEq, Repr

/-- Rendering of a `Component` as produced by Rust's `{:?}` formatter. -/
def componentName : Component → String
  | Component.ProxyServer => "ProxyServer"
  | Component.ProxyClient => "ProxyClient"
  | Component.Neighborhood => "Neighborhood"
  | Component.Hopper => "Hopper"

/-- Modelled from the spec: a `Hop` in cleartext form is a pair
`(next_key, component)`. -/
structure Hop where
  next_key : Key
  component : Component
deriving DecidableEq, Repr

/-- Modelled from the spec: a `Route` is an ordered list of encrypted hops,
each hop a ciphertext byte string. -/
def Route : Type := List (List Nat)

instance : DecidableEq Route := by
  unfold Route
  infer_instance

/-- Modelled from the spec: `LiveCoresPackage` is a route plus an opaque
encrypted payload (`CryptData`). -/
structure LiveCoresPackage where
  route : Route
  payload : List Nat
deriving DecidableEq

/-- Modelled from the spec: `IncipientCoresPackage` is a route, a plaintext
payload, and the key the payload is destined for. -/
structure IncipientCoresPackage where
  route : Route
  payload : List Nat
  payload_destination_key : Key
deriving DecidableEq

/-- Modelled from the spec: `ExpiredCoresPackage` is the remaining route plus
the decrypted payload, delivered to a local component. -/
structure ExpiredCoresPackage where
  remaining_route : Route
  payload : List Nat
deriving DecidableEq

/-- IP address (octets only; the model needs equality and extraction). -/
structure IpAddr where
  octets : List Nat
deriving DecidableEq, Repr

/-- Socket address: IP plus port.  `SocketAddr.ip` models Rust's
`peer_addr.ip()`. -/
structure SocketAddr where
  ip : IpAddr
  port : Nat
deriving DecidableEq, Repr

/-- `ExpiredCoresPackagePackage`: expired package plus ingress peer IP, used
only for the Neighborhood sink. -/
structure ExpiredCoresPackagePackage where
  expired_cores_package : ExpiredCoresPackage
  sender_ip : IpAddr
deriving DecidableEq

/-- `sub_lib::dispatcher::InboundClientData`: the unit delivered by the
transport layer. -/
structure InboundClientData where
  peer_addr : SocketAddr
  reception_port : Option Nat
  last_data : Bool
  sequence_number : Option Nat
  is_clandestine : Bool
  data : List Nat
deriving DecidableEq

/-- `Endpoint` is `Key(Key) | Socket(SocketAddress)`. -/
inductive Endpoint where
  | Key (key : Key)
  | Socket (addr : SocketAddr)
deriving DecidableEq, Repr

/-- `sub_lib::stream_handler_pool::TransmitDataMsg`: the unit consumed by the
transport layer. -/
structure TransmitDataMsg where
  endpoint : Endpoint
  last_data : Bool
  data : List Nat
  sequence_number : Option Nat
deriving DecidableEq

/-- Log levels used by the hopper sources. -/
inductive LogLevel where
  | error
  | debug
  | trace
deriving DecidableEq, Repr

/-- One emitted log line. -/
structure LogEntry where
  level : LogLevel
  text : String
deriving DecidableEq

/-- The ERROR-level entries of a log, in order. -/
def errorLogs (logs : List LogEntry) : List LogEntry :=
  logs.filter (fun e =>
    match e.level with
    | LogLevel.error => true
    | _ => false)

/-- Modelled from the spec: the external `CryptDE` capability — a public key,
asymmetric `encode`/`decode`, and the garbage-byte generator used by
`Route::shift` for its garbage hop.  Failures carry a detail string (what the
Rust error renders to inside the log messages). -/
structure CryptDE where
  public_key : Key
  encodeFn : Key → List Nat → Except String (List Nat)
  decodeFn : List Nat → Except String (List Nat)
  gen_garbage : Nat → List Nat

/-- Modelled from the spec: the deterministic structural codec (`serde_cbor`
in the source) restricted to the shapes the hopper uses: serializing a
`LiveCoresPackage`, deserializing one, and deserializing a cleartext `Hop`. -/
structure Codec where
  serLCP : LiveCoresPackage → Except String (List Nat)
  deLCP : List Nat → Except String LiveCoresPackage
  deHop : List Nat → Except String Hop

/-- Modelled from the spec: decrypt the leading encrypted hop of a route using
this node's key, without removing it (the peek used by
`LiveCoresPackage::next_hop`). -/
def Route.next_hop (route : Route) (cryptde : CryptDE) (codec : Codec) :
    Except String Hop :=
  match route with
  | [] => Except.error "empty route"
  | eh :: _ => do
    let plain ← cryptde.decodeFn eh
    codec.deHop plain

/-- Modelled from the spec: `shift` decrypts the leading encrypted hop,
removes it from the front, and appends a garbage encrypted hop of the same
ciphertext length at the tail; it returns the decrypted head and the new
route. -/
def Route.shift (route : Route) (cryptde : CryptDE) (codec : Codec) :
    Except String (Hop × Route) :=
  match route with
  | [] => Except.error "empty route"
  | eh :: rest => do
    let plain ← cryptde.decodeFn eh
    let hop ← codec.deHop plain
    Except.ok (hop, rest ++ [cryptde.gen_garbage eh.length])

/-- Modelled from the spec: peek the leading hop of a live package's route. -/
def LiveCoresPackage.next_hop (lcp : LiveCoresPackage) (cryptde : CryptDE)
    (codec : Codec) : Except String Hop :=
  lcp.route.next_hop cryptde codec

/-- Modelled from the spec: shift the live package's route once; the result is
the next peer's key (the shifted hop's `next_key`) together with the package
to forward. -/
def LiveCoresPackage.to_next_live (lcp : LiveCoresPackage) (cryptde : CryptDE)
    (codec : Codec) : Except String (Key × LiveCoresPackage) := do
  let shifted ← lcp.route.shift cryptde codec
  Except.ok (shifted.fst.next_key, LiveCoresPackage.mk shifted.snd lcp.payload)

/-- Modelled from the spec: `to_expired` keeps the remaining route and
decrypts the payload with this node's key.  The spec gives no branch for a
payload that fails to decrypt; the failure is surfaced as an error that the
callers treat as a crashpoint. -/
def LiveCoresPackage.to_expired (lcp : LiveCoresPackage) (cryptde : CryptDE) :
    Except String ExpiredCoresPackage := do
  let plain ← cryptde.decodeFn lcp.payload
  Except.ok (ExpiredCoresPackage.mk lcp.route plain)

/-- Modelled from the spec: `from_incipient` encrypts the payload under the
destination key, shifts the route once at origin, and returns the live
package together with the shifted hop's `next_key` (this node's own key in
the zero-hop case, otherwise the first remote peer's key). -/
def LiveCoresPackage.from_incipient (icp : IncipientCoresPackage)
    (cryptde : CryptDE) (codec : Codec) :
    Except String (LiveCoresPackage × Key) := do
  let encrypted_payload ← cryptde.encodeFn icp.payload_destination_key icp.payload
  let shifted ← icp.route.shift cryptde codec
  Except.ok (LiveCoresPackage.mk shifted.snd encrypted_payload, shifted.fst.next_key)

/-! ## RoutingService (`src/hopper_lib/src/routing_service.rs`) -/

/-- The routing-relevant state of `RoutingService`: its crypto capability and
the bootstrap flag.  The sink recipients are modelled by the output record
below. -/
structure RoutingService where
  cryptde : CryptDE
  is_bootstrap_node : Bool

/-- Everything one `route` call emits: messages per sink, log lines, and
whether the Rust code would have panicked. -/
structure RoutingOutput where
  toProxyClient : List ExpiredCoresPackage
  toProxyServer : List ExpiredCoresPackage
  toNeighborhood : List ExpiredCoresPackagePackage
  toDispatcher : List TransmitDataMsg
  logs : List LogEntry
  panicked : Bool
deriving DecidableEq

/-- The output of a call that emitted nothing. -/
def RoutingOutput.empty : RoutingOutput :=
  RoutingOutput.mk [] [] [] [] [] false

/-- The output of a call that hit an `unimplemented!` / failed `expect`. -/
def RoutingOutput.panic : RoutingOutput :=
  RoutingOutput.mk [] [] [] [] [] true

/-- `RoutingService::decrypt_and_deserialize_lcp`: decode the inbound bytes
with this node's key, then deserialize the plaintext as a
`LiveCoresPackage`; each failure is logged at ERROR with the messages of the
source. -/
def RoutingService.decrypt_and_deserialize_lcp (svc : RoutingService)
    (codec : Codec) (ibcd : InboundClientData) :
    Except Unit LiveCoresPackage × List LogEntry :=
  match svc.cryptde.decodeFn ibcd.data with
  | Except.error e =>
    (Except.error (),
     [LogEntry.mk LogLevel.error ("Couldn't decrypt CORES package: " ++ e)])
  | Except.ok decrypted_package =>
    match codec.deLCP decrypted_package with
    | Except.error e =>
      (Except.error (),
       [LogEntry.mk LogLevel.error ("Couldn't deserialize CORES package: " ++ e)])
    | Except.ok live_package => (Except.ok live_package, [])

/-- `RoutingService::should_route_data`: Neighborhood is always admitted; a
bootstrap node rejects every other component with the ERROR log of the
source; a standard node admits everything. -/
def RoutingService.should_route_data (svc : RoutingService)
    (component : Component) : Bool × List LogEntry :=
  if component = Component.Neighborhood then
    (true, [])
  else if svc.is_bootstrap_node then
    (false,
     [LogEntry.mk LogLevel.error
       ("Request for Bootstrap Node to route data to " ++ componentName component
         ++ ": rejected")])
  else
    (true, [])

/-- `RoutingService::to_transmit_data_msg`: shift the package, serialize the
shifted package, encrypt it under the next key.  Each failure branch of the
source is `unimplemented!` (a crashpoint), modelled as `none`. -/
def RoutingService.to_transmit_data_msg (svc : RoutingService) (codec : Codec)
    (live_package : LiveCoresPackage) (last_data : Bool) :
    Option TransmitDataMsg :=
  match live_package.to_next_live svc.cryptde codec with
  | Except.error _ => none
  | Except.ok next =>
    match codec.serLCP next.snd with
    | Except.error _ => none
    | Except.ok next_live_package_ser =>
      match svc.cryptde.encodeFn next.fst next_live_package_ser with
      | Except.error _ => none
      | Except.ok next_live_package_enc =>
        some (TransmitDataMsg.mk (Endpoint.Key next.fst) last_data
          next_live_package_enc none)

/-- `RoutingService::route_data_externally`: build the transmit message (a
failure there is an `unimplemented!` crashpoint) and send it to the
dispatcher with the source's DEBUG log. -/
def RoutingService.route_data_externally (svc : RoutingService) (codec : Codec)
    (live_package : LiveCoresPackage) (last_data : Bool) : RoutingOutput :=
  match svc.to_transmit_data_msg codec live_package last_data with
  | none => RoutingOutput.panic
  | some transmit_msg =>
    RoutingOutput.mk [] [] [] [transmit_msg]
      [LogEntry.mk LogLevel.debug
        ("Relaying " ++ toString transmit_msg.data.length
          ++ "-byte LiveCoresPackage Dispatcher inside a TransmitDataMsg")]
      false

/-- `RoutingService::handle_endpoint`: expire the package (payload decryption
failure is a crashpoint, modelled as `none`) and deliver it with the source's
TRACE log (whose rendering of the package is abbreviated here). -/
def RoutingService.handle_endpoint (svc : RoutingService)
    (component : Component) (live_package : LiveCoresPackage) :
    Option (ExpiredCoresPackage × List LogEntry) :=
  match live_package.to_expired svc.cryptde with
  | Except.error _ => none
  | Except.ok expired_package =>
    some (expired_package,
      [LogEntry.mk LogLevel.trace
        ("Forwarding ExpiredCoresPackage to " ++ componentName component)])

/-- `RoutingService::handle_ip_endpoint`: like `handle_endpoint` but wraps the
expired package with the sender IP for the Neighborhood sink. -/
def RoutingService.handle_ip_endpoint (svc : RoutingService)
    (component : Component) (live_package : LiveCoresPackage)
    (sender_ip : IpAddr) :
    Option (ExpiredCoresPackagePackage × List LogEntry) :=
  match live_package.to_expired svc.cryptde with
  | Except.error _ => none
  | Except.ok expired_package =>
    some (ExpiredCoresPackagePackage.mk expired_package sender_ip,
      [LogEntry.mk LogLevel.trace
        ("Forwarding ExpiredCoresPackagePackage to " ++ componentName component)])

/-- `RoutingService::route_data_internally`: dispatch on the component; the
catch-all arm of the source is `unimplemented!` (a crashpoint). -/
def RoutingService.route_data_internally (svc : RoutingService)
    (component : Component) (sender_ip : IpAddr)
    (live_package : LiveCoresPackage) : RoutingOutput :=
  match component with
  | Component.ProxyServer =>
    match svc.handle_endpoint component live_package with
    | none => RoutingOutput.panic
    | some r => RoutingOutput.mk [] [r.fst] [] [] r.snd false
  | Component.ProxyClient =>
    match svc.handle_endpoint component live_package with
    | none => RoutingOutput.panic
    | some r => RoutingOutput.mk [r.fst] [] [] [] r.snd false
  | Component.Neighborhood =>
    match svc.handle_ip_endpoint component live_package sender_ip with
    | none => RoutingOutput.panic
    | some r => RoutingOutput.mk [] [] [r.fst] [] r.snd false
  | Component.Hopper => RoutingOutput.panic

/-- `RoutingService::route_data`: Hopper hops relay externally, every other
component is delivered internally. -/
def RoutingService.route_data (svc : RoutingService) (codec : Codec)
    (sender_ip : IpAddr) (next_hop : Hop) (live_package : LiveCoresPackage)
    (last_data : Bool) : RoutingOutput :=
  if next_hop.component = Component.Hopper then
    svc.route_data_externally codec live_package last_data
  else
    svc.route_data_internally next_hop.component sender_ip live_package

/-- `RoutingService::route`: log receipt at DEBUG, decrypt and deserialize
(failures were already logged and drop the message), peek the next hop (a
failure inside `next_hop` is a crashpoint of the missing source, modelled as
a panic), run the admission check, and dispatch. -/
def RoutingService.route (svc : RoutingService) (codec : Codec)
    (ibcd : InboundClientData) : RoutingOutput :=
  let dlog := LogEntry.mk LogLevel.debug
    ("Received " ++ toString ibcd.data.length
      ++ " bytes of InboundClientData from Dispatcher")
  let sender_ip := ibcd.peer_addr.ip
  let last_data := ibcd.last_data
  match svc.decrypt_and_deserialize_lcp codec ibcd with
  | (Except.error _, logs1) =>
    RoutingOutput.mk [] [] [] [] (dlog :: logs1) false
  | (Except.ok live_package, logs1) =>
    match live_package.next_hop svc.cryptde codec with
    | Except.error _ =>
      RoutingOutput.mk [] [] [] [] (dlog :: logs1) true
    | Except.ok next_hop =>
      match svc.should_route_data next_hop.component with
      | (true, logs2) =>
        let out := svc.route_data codec sender_ip next_hop live_package last_data
        RoutingOutput.mk out.toProxyClient out.toProxyServer out.toNeighborhood
          out.toDispatcher (dlog :: (logs1 ++ logs2 ++ out.logs)) out.panicked
      | (false, logs2) =>
        RoutingOutput.mk [] [] [] [] (dlog :: (logs1 ++ logs2)) false

/-! ## ConsumingService (`src/hopper_lib/src/consuming_service.rs`) -/

/-- The consuming-relevant state of `ConsumingService`.  The source holds the
bootstrap flag in a field named `_is_bootstrap_node` with a TODO comment and
never reads it. -/
structure ConsumingService where
  cryptde : CryptDE
  _is_bootstrap_node : Bool

/-- Everything one `consume` call emits: messages to the dispatcher and the
hopper sink, log lines, and whether the Rust code would have panicked. -/
structure ConsumingOutput where
  toDispatcher : List TransmitDataMsg
  toHopper : List InboundClientData
  logs : List LogEntry
  panicked : Bool
deriving DecidableEq

/-- `ConsumingService::serialize_and_encrypt_lcp`: CBOR-serialize the live
package, then encrypt under the next node's key; each failure is logged at
ERROR with the messages of the source and reported as `Err`. -/
def ConsumingService.serialize_and_encrypt_lcp (svc : ConsumingService)
    (codec : Codec) (live_package : LiveCoresPackage) (next_node_key : Key) :
    Except Unit (List Nat) × List LogEntry :=
  match codec.serLCP live_package with
  | Except.error e =>
    (Except.error (),
     [LogEntry.mk LogLevel.error ("Couldn't serialize package: " ++ e)])
  | Except.ok serialized_package =>
    match svc.cryptde.encodeFn next_node_key serialized_package with
    | Except.error e =>
      (Except.error (),
       [LogEntry.mk LogLevel.error ("Couldn't encode package: " ++ e)])
    | Except.ok encrypted_package => (Except.ok encrypted_package, [])

/-- `ConsumingService::launch_zero_hop_lcp`: synthesize the loopback
`InboundClientData` — placeholder peer address `1.2.3.4:5678`, no reception
port, `last_data = false`, no sequence number, `is_clandestine = true` — and
send it to the hopper sink with the source's DEBUG log. -/
def ConsumingService.launch_zero_hop_lcp (_svc : ConsumingService)
    (encrypted_package : List Nat) : ConsumingOutput :=
  let inbound_client_data := InboundClientData.mk
    (SocketAddr.mk (IpAddr.mk [1, 2, 3, 4]) 5678) none false none true
    encrypted_package
  ConsumingOutput.mk [] [inbound_client_data]
    [LogEntry.mk LogLevel.debug
      ("Sending InboundClientData with " ++ toString inbound_client_data.data.length
        ++ "-byte payload to Hopper")]
    false

/-- `ConsumingService::launch_conventional_lcp`: send a `TransmitDataMsg`
addressed to the next node's key, with `last_data = false` and no sequence
number, to the dispatcher with the source's DEBUG log. -/
def ConsumingService.launch_conventional_lcp (_svc : ConsumingService)
    (encrypted_package : List Nat) (next_node_key : Key) : ConsumingOutput :=
  let transmit_msg := TransmitDataMsg.mk (Endpoint.Key next_node_key) false
    encrypted_package none
  ConsumingOutput.mk [transmit_msg] []
    [LogEntry.mk LogLevel.debug
      ("Sending TransmitDataMsg with " ++ toString transmit_msg.data.length
        ++ "-byte payload to Dispatcher")]
    false

/-- `ConsumingService::launch_lcp`: loopback to the hopper when the next
node's key is this node's own public key, otherwise transmit
conventionally. -/
def ConsumingService.launch_lcp (svc : ConsumingService)
    (encrypted_package : List Nat) (next_node_key : Key) : ConsumingOutput :=
  if svc.cryptde.public_key = next_node_key then
    svc.launch_zero_hop_lcp encrypted_package
  else
    svc.launch_conventional_lcp encrypted_package next_node_key

/-- `ConsumingService::consume`: log receipt at DEBUG, convert the incipient
package to live form (a failure inside `from_incipient` is an `expect`
crashpoint of the missing source, modelled as a panic), serialize and
encrypt (a failure there was already logged and drops the message), then
launch. -/
def ConsumingService.consume (svc : ConsumingService) (codec : Codec)
    (incipient_cores_package : IncipientCoresPackage) : ConsumingOutput :=
  let dlog := LogEntry.mk LogLevel.debug
    ("Received IncipientCoresPackage with "
      ++ toString incipient_cores_package.payload.length ++ "-byte payload")
  match LiveCoresPackage.from_incipient incipient_cores_package svc.cryptde codec with
  | Except.error _ => ConsumingOutput.mk [] [] [dlog] true
  | Except.ok conv =>
    match svc.serialize_and_encrypt_lcp codec conv.fst conv.snd with
    | (Except.error _, logs1) => ConsumingOutput.mk [] [] (dlog :: logs1) false
    | (Except.ok encrypted_package, logs1) =>
      let out := svc.launch_lcp encrypted_package conv.snd
      ConsumingOutput.mk out.toDispatcher out.toHopper
        (dlog :: (logs1 ++ out.logs)) out.panicked

/-! ## Discriminator (`src/node/src/discriminator.rs`) -/

/-- The unit a masquerader recovers from a frame: a component tag and the
unmasked bytes (`type UnmaskedChunk = (Component, Vec<u8>)`). -/
def UnmaskedChunk : Type := Component × List Nat

instance : DecidableEq UnmaskedChunk := by
  unfold UnmaskedChunk
  infer_instance

/-- A `Masquerader`, modelled by its (stateless) `try_unmask` behaviour; the
`mask` direction is not used by the discriminator. -/
structure Masquerader where
  try_unmask : List Nat → Option UnmaskedChunk

/-- A `Discriminator` composed with its framer.  The framer trait is
implementation-defined, so it is embedded as an explicit state `framer_state`
of some type together with the two trait methods acting on that state:
`add_dataF` (the framer's `add_data`) and `take_frameF` (the framer's
`take_frame`, returning the optional frame and the successor state). -/
structure Discriminator (sigma : Type) where
  framer_state : sigma
  add_dataF : sigma → List Nat → sigma
  take_frameF : sigma → Option (List Nat) × sigma
  masqueraders : List Masquerader

/-- `Discriminator::new` panics when given no masqueraders; modelled by
returning `none` in that case. -/
def Discriminator.new {sigma : Type} (framer_state : sigma)
    (add_dataF : sigma → List Nat → sigma)
    (take_frameF : sigma → Option (List Nat) × sigma)
    (masqueraders : List Masquerader) : Option (Discriminator sigma) :=
  if masqueraders.isEmpty then none
  else some (Discriminator.mk framer_state add_dataF take_frameF masqueraders)

/-- `Discriminator::add_data` delegates to the framer. -/
def Discriminator.add_data {sigma : Type} (d : Discriminator sigma)
    (data : List Nat) : Discriminator sigma :=
  Discriminator.mk (d.add_dataF d.framer_state data) d.add_dataF d.take_frameF
    d.masqueraders

/-- The `for masquerader in &self.masqueraders` loop of `take_chunk`: return
the first `Some` result of `try_unmask` on the frame, else `none`. -/
def tryMasqueraders : List Masquerader → List Nat → Option UnmaskedChunk
  | [], _ => none
  | m :: ms, frame =>
    match m.try_unmask frame with
    | some chunk => some chunk
    | none => tryMasqueraders ms frame

/-- `Discriminator::take_chunk`: pull one frame from the framer (none
available means `None`); otherwise try the masqueraders in registration
order.  In every case the frame, once taken, stays consumed: the returned
discriminator carries the framer's post-`take_frame` state. -/
def Discriminator.take_chunk {sigma : Type} (d : Discriminator sigma) :
    Option UnmaskedChunk × Discriminator sigma :=
  match d.take_frameF d.framer_state with
  | (none, s2) =>
    (none, Discriminator.mk s2 d.add_dataF d.take_frameF d.masqueraders)
  | (some frame, s2) =>
    (tryMasqueraders d.masqueraders frame,
     Discriminator.mk s2 d.add_dataF d.take_frameF d.masqueraders)

/-! ## Concrete instances (used by the witnesses and counterexamples) -/

/-- A one-byte key. -/
def wKey (n : Nat) : Key := Key.mk [n]

/-- A concrete crypto engine: the node's key is `wKey 0`, encryption prepends
the key's byte, decryption is the identity. -/
def wCryptde : CryptDE :=
  CryptDE.mk (wKey 0) (fun k d => Except.ok (k.data ++ d))
    (fun d => Except.ok d) (fun n => List.replicate n 0)

/-- An intermediate hop toward peer `wKey 1`. -/
def wHopH : Hop := Hop.mk (wKey 1) Component.Hopper

/-- A terminal Neighborhood hop. -/
def wHopN : Hop := Hop.mk (wKey 0) Component.Neighborhood

/-- A terminal ProxyClient hop. -/
def wHopPC : Hop := Hop.mk (wKey 0) Component.ProxyClient

/-- A live package whose leading hop decodes to `wHopH`. -/
def wLCPH : LiveCoresPackage := LiveCoresPackage.mk [[3]] [8]

/-- A live package whose leading hop decodes to `wHopN`. -/
def wLCPN : LiveCoresPackage := LiveCoresPackage.mk [[4]] [8]

/-- A live package whose leading hop decodes to `wHopPC`. -/
def wLCPPC : LiveCoresPackage := LiveCoresPackage.mk [[6]] [8]

/-- A concrete codec recognizing the three packages and hops above. -/
def wCodec : Codec :=
  Codec.mk (fun _ => Except.ok [9])
    (fun d =>
      if d = [5] then Except.ok wLCPH
      else if d = [15] then Except.ok wLCPN
      else if d = [16] then Except.ok wLCPPC
      else Except.error "unknown package bytes")
    (fun d =>
      if d = [3] then Except.ok wHopH
      else if d = [4] then Except.ok wHopN
      else if d = [6] then Except.ok wHopPC
      else Except.error "unknown hop bytes")

/-- A clandestine inbound message carrying the given bytes. -/
def wIbcd (bytes : List Nat) : InboundClientData :=
  InboundClientData.mk (SocketAddr.mk (IpAddr.mk [10, 11, 12, 13]) 4321)
    none false none true bytes

/-- A crypto engine whose decryption always fails. -/
def wCryptdeDecFail : CryptDE :=
  CryptDE.mk (wKey 0) (fun k d => Except.ok (k.data ++ d))
    (fun _ => Except.error "invalid ciphertext") (fun n => List.replicate n 0)

/-- A crypto engine whose encryption always fails. -/
def wCryptdeEncFail : CryptDE :=
  CryptDE.mk (wKey 0) (fun _ _ => Except.error "encryption failure")
    (fun d => Except.ok d) (fun n => List.replicate n 0)

/-- A codec whose serializer always fails (deserializing as `wCodec` does). -/
def wCodecSerFail : Codec :=
  Codec.mk (fun _ => Except.error "serialization failure") wCodec.deLCP wCodec.deHop

/-- A concrete incipient package: one-hop route toward `wKey 1`, payload `[7]`. -/
def wIcp : IncipientCoresPackage :=
  IncipientCoresPackage.mk [[3]] [7] (wKey 1)

/-- A second inbound message: same data, peer IP and last_data as `wIbcd [5]`,
but different peer port, reception port, sequence number and clandestine
flag. -/
def wIbcdB : InboundClientData :=
  InboundClientData.mk (SocketAddr.mk (IpAddr.mk [10, 11, 12, 13]) 9999)
    (some 80) false (some 42) false [5]

/-- A queue-of-frames framer state: `take_frame` pops the first queued
frame. -/
def wFramerTake (s : List (List Nat)) : Option (List Nat) × List (List Nat) :=
  match s with
  | [] => (none, [])
  | f :: rest => (some f, rest)

/-- The queue framer appends newly added data as one frame. -/
def wFramerAdd (s : List (List Nat)) (d : List Nat) : List (List Nat) :=
  s ++ [d]

/-- A masquerader that never matches. -/
def wMasqNone : Masquerader := Masquerader.mk (fun _ => none)

/-- A masquerader matching exactly the frame `[7]`. -/
def wMasqPC : Masquerader :=
  Masquerader.mk (fun f => if f = [7] then some (Component.ProxyClient, [9]) else none)

/-- A masquerader that matches every frame. -/
def wMasqPS : Masquerader :=
  Masquerader.mk (fun _ => some (Component.ProxyServer, [8]))

/-- A discriminator primed with the single frame `[7]` and three
masqueraders. -/
def wDisc : Discriminator (List (List Nat)) :=
  Discriminator.mk [[7]] wFramerAdd wFramerTake [wMasqNone, wMasqPC, wMasqPS]

/-- A freshly constructed discriminator with no added data. -/
def wDiscEmpty : Discriminator (List (List Nat)) :=
  Discriminator.mk [] wFramerAdd wFramerTake [wMasqNone]


/-! ## C1 -/

/-- C1: Bootstrap admission policy.  For every inbound package that decrypts
and deserializes, with a shifted hop carrying a component other than
Neighborhood, a routing service with `is_bootstrap_node = true` sends no
message to any sink and logs `"Request for Bootstrap Node to route data to
<component>: rejected"` at ERROR exactly once; for Neighborhood it performs
exactly one delivery to the neighborhood sink and emits no ERROR log. -/
theorem bootstrap_admission_policy
    (svc : RoutingService) (codec : Codec) (ibcd : InboundClientData)
    (plain : List Nat) (lcp : LiveCoresPackage) (hop : Hop)
    (hboot : svc.is_bootstrap_node = true)
    (hdec : svc.cryptde.decodeFn ibcd.data = Except.ok plain)
    (hde : codec.deLCP plain = Except.ok lcp)
    (hhop : lcp.next_hop svc.cryptde codec = Except.ok hop) :
    (hop.component ≠ Component.Neighborhood →
      ((svc.route codec ibcd).toProxyClient = [] ∧
       (svc.route codec ibcd).toProxyServer = [] ∧
       (svc.route codec ibcd).toNeighborhood = [] ∧
       (svc.route codec ibcd).toDispatcher = [] ∧
       errorLogs (svc.route codec ibcd).logs =
         [LogEntry.mk LogLevel.error
           ("Request for Bootstrap Node to route data to "
             ++ componentName hop.component ++ ": rejected")] ∧
       (svc.route codec ibcd).panicked = false)) ∧
    (hop.component = Component.Neighborhood →
      ∀ pl, svc.cryptde.decodeFn lcp.payload = Except.ok pl →
        ((svc.route codec ibcd).toNeighborhood =
           [ExpiredCoresPackagePackage.mk (ExpiredCoresPackage.mk lcp.route pl)
             ibcd.peer_addr.ip] ∧
         (svc.route codec ibcd).toProxyClient = [] ∧
         (svc.route codec ibcd).toProxyServer = [] ∧
         (svc.route codec ibcd).toDispatcher = [] ∧
         errorLogs (svc.route codec ibcd).logs = [] ∧
         (svc.route codec ibcd).panicked = false)) := by
  have hdd : svc.decrypt_and_deserialize_lcp codec ibcd = (Except.ok lcp, []) := by
    simp only [RoutingService.decrypt_and_deserialize_lcp, hdec, hde]
  have hhop2 : lcp.route.next_hop svc.cryptde codec = Except.ok hop := hhop
  constructor
  · intro hne
    have hsr : svc.should_route_data hop.component =
        (false, [LogEntry.mk LogLevel.error
          ("Request for Bootstrap Node to route data to "
            ++ componentName hop.component ++ ": rejected")]) := by
      simp [RoutingService.should_route_data, hne, hboot]
    simp [RoutingService.route, hdd, LiveCoresPackage.next_hop, hhop2, hsr,
      errorLogs, List.filter]
  · intro heq pl hpl
    have hsr : svc.should_route_data Component.Neighborhood = (true, []) := by
      simp [RoutingService.should_route_data]
    have hexp : lcp.to_expired svc.cryptde =
        Except.ok (ExpiredCoresPackage.mk lcp.route pl) := by
      unfold LiveCoresPackage.to_expired
      rw [hpl]
      rfl
    simp [RoutingService.route, hdd, LiveCoresPackage.next_hop, hhop2, hsr,
      RoutingService.route_data, heq, RoutingService.route_data_internally,
      RoutingService.handle_ip_endpoint, hexp, errorLogs, List.filter]

/-- Witness for C1: a concrete bootstrap routing service rejecting a
ProxyClient-bound package. -/
theorem bootstrap_admission_policy_witness :
    ((RoutingService.mk wCryptde true).route wCodec (wIbcd [16])).toProxyClient = [] ∧
    ((RoutingService.mk wCryptde true).route wCodec (wIbcd [16])).toProxyServer = [] ∧
    ((RoutingService.mk wCryptde true).route wCodec (wIbcd [16])).toNeighborhood = [] ∧
    ((RoutingService.mk wCryptde true).route wCodec (wIbcd [16])).toDispatcher = [] ∧
    errorLogs ((RoutingService.mk wCryptde true).route wCodec (wIbcd [16])).logs =
      [LogEntry.mk LogLevel.error
        ("Request for Bootstrap Node to route data to "
          ++ componentName wHopPC.component ++ ": rejected")] ∧
    ((RoutingService.mk wCryptde true).route wCodec (wIbcd [16])).panicked = false :=
  (bootstrap_admission_policy (RoutingService.mk wCryptde true) wCodec
    (wIbcd [16]) [16] wLCPPC wHopPC rfl rfl rfl rfl).1 (by decide)

/-! ## C2 -/

/-- C2: Intermediate-hop relay.  For every inbound message that decrypts and
deserializes to a live package whose peeked hop carries component Hopper and
is admitted, `route` emits to the dispatcher exactly one `TransmitDataMsg`
with endpoint `Key(next_key)`, `last_data` equal to the inbound flag, and
data the encryption under `next_key` of the serialization of the shifted
package. -/
theorem intermediate_hop_relay
    (svc : RoutingService) (codec : Codec) (ibcd : InboundClientData)
    (plain : List Nat) (lcp : LiveCoresPackage) (hop : Hop)
    (next_key : Key) (next_live : LiveCoresPackage) (ser enc : List Nat)
    (hdec : svc.cryptde.decodeFn ibcd.data = Except.ok plain)
    (hde : codec.deLCP plain = Except.ok lcp)
    (hhop : lcp.next_hop svc.cryptde codec = Except.ok hop)
    (hcomp : hop.component = Component.Hopper)
    (hboot : svc.is_bootstrap_node = false)
    (hnext : lcp.to_next_live svc.cryptde codec = Except.ok (next_key, next_live))
    (hser : codec.serLCP next_live = Except.ok ser)
    (henc : svc.cryptde.encodeFn next_key ser = Except.ok enc) :
    (svc.route codec ibcd).toDispatcher =
      [TransmitDataMsg.mk (Endpoint.Key next_key) ibcd.last_data enc none] ∧
    (svc.route codec ibcd).toProxyClient = [] ∧
    (svc.route codec ibcd).toProxyServer = [] ∧
    (svc.route codec ibcd).toNeighborhood = [] ∧
    (svc.route codec ibcd).panicked = false := by
  have hdd : svc.decrypt_and_deserialize_lcp codec ibcd = (Except.ok lcp, []) := by
    simp only [RoutingService.decrypt_and_deserialize_lcp, hdec, hde]
  have hhop2 : lcp.route.next_hop svc.cryptde codec = Except.ok hop := hhop
  have hsr : svc.should_route_data Component.Hopper = (true, []) := by
    simp [RoutingService.should_route_data, hboot]
  have htdm : svc.to_transmit_data_msg codec lcp ibcd.last_data =
      some (TransmitDataMsg.mk (Endpoint.Key next_key) ibcd.last_data enc none) := by
    simp [RoutingService.to_transmit_data_msg, hnext, hser, henc]
  simp [RoutingService.route, hdd, LiveCoresPackage.next_hop, hhop2, hcomp, hsr,
    RoutingService.route_data, RoutingService.route_data_externally, htdm]

/-- Witness for C2: a concrete intermediate-hop relay. -/
theorem intermediate_hop_relay_witness :
    ((RoutingService.mk wCryptde false).route wCodec (wIbcd [5])).toDispatcher =
      [TransmitDataMsg.mk (Endpoint.Key (wKey 1)) false [1, 9] none] ∧
    ((RoutingService.mk wCryptde false).route wCodec (wIbcd [5])).toProxyClient = [] ∧
    ((RoutingService.mk wCryptde false).route wCodec (wIbcd [5])).toProxyServer = [] ∧
    ((RoutingService.mk wCryptde false).route wCodec (wIbcd [5])).toNeighborhood = [] ∧
    ((RoutingService.mk wCryptde false).route wCodec (wIbcd [5])).panicked = false :=
  intermediate_hop_relay (RoutingService.mk wCryptde false) wCodec (wIbcd [5])
    [5] wLCPH wHopH (wKey 1) (LiveCoresPackage.mk [[0]] [8]) [9] [1, 9]
    rfl rfl rfl rfl rfl rfl rfl rfl

/-! ## C3 -/

/-- C3: Consuming dispatch decision.  For every incipient package whose
serialization and encryption succeed, `consume` sends the zero-hop loopback
`InboundClientData` (placeholder peer address, `is_clandestine = true`,
`last_data = false`, no sequence number, data the ciphertext) to the hopper
sink if and only if the outermost hop's `next_key` equals this node's key;
otherwise it sends exactly one `TransmitDataMsg` to the dispatcher. -/
theorem consuming_dispatch_decision
    (svc : ConsumingService) (codec : Codec) (icp : IncipientCoresPackage)
    (live : LiveCoresPackage) (next_key : Key) (ser enc : List Nat)
    (hinc : LiveCoresPackage.from_incipient icp svc.cryptde codec =
      Except.ok (live, next_key))
    (hser : codec.serLCP live = Except.ok ser)
    (henc : svc.cryptde.encodeFn next_key ser = Except.ok enc) :
    (next_key = svc.cryptde.public_key →
      ((svc.consume codec icp).toHopper =
        [InboundClientData.mk (SocketAddr.mk (IpAddr.mk [1, 2, 3, 4]) 5678)
          none false none true enc] ∧
       (svc.consume codec icp).toDispatcher = [] ∧
       (svc.consume codec icp).panicked = false)) ∧
    (next_key ≠ svc.cryptde.public_key →
      ((svc.consume codec icp).toDispatcher =
        [TransmitDataMsg.mk (Endpoint.Key next_key) false enc none] ∧
       (svc.consume codec icp).toHopper = [] ∧
       (svc.consume codec icp).panicked = false)) := by
  have hse : svc.serialize_and_encrypt_lcp codec live next_key =
      (Except.ok enc, []) := by
    simp [ConsumingService.serialize_and_encrypt_lcp, hser, henc]
  constructor
  · intro heq
    have hpk : svc.cryptde.public_key = next_key := heq.symm
    simp [ConsumingService.consume, hinc, hse, ConsumingService.launch_lcp, hpk,
      ConsumingService.launch_zero_hop_lcp]
  · intro hne
    have hpk : ¬svc.cryptde.public_key = next_key := fun h => hne h.symm
    simp [ConsumingService.consume, hinc, hse, ConsumingService.launch_lcp, hpk,
      ConsumingService.launch_conventional_lcp]

/-- Witness for C3: a concrete non-loopback consume reaching the
dispatcher. -/
theorem consuming_dispatch_decision_witness :
    ((ConsumingService.mk wCryptde false).consume wCodec wIcp).toDispatcher =
      [TransmitDataMsg.mk (Endpoint.Key (wKey 1)) false [1, 9] none] ∧
    ((ConsumingService.mk wCryptde false).consume wCodec wIcp).toHopper = [] ∧
    ((ConsumingService.mk wCryptde false).consume wCodec wIcp).panicked = false :=
  (consuming_dispatch_decision (ConsumingService.mk wCryptde false) wCodec wIcp
    (LiveCoresPackage.mk [[0]] [1, 7]) (wKey 1) [9] [1, 9]
    rfl rfl rfl).2 (by decide)

/-! ## C4 -/

/-- C4: Inbound format-error handling.  An inbound message whose data fails
to decrypt produces the ERROR log `"Couldn't decrypt CORES package: <e>"`
and no message to any sink; one that decrypts but fails to deserialize
produces the ERROR log `"Couldn't deserialize CORES package: <e>"` and no
message to any sink; neither case panics. -/
theorem inbound_format_error_handling
    (svc : RoutingService) (codec : Codec) (ibcd : InboundClientData) :
    (∀ e, svc.cryptde.decodeFn ibcd.data = Except.error e →
      ((svc.route codec ibcd).toProxyClient = [] ∧
       (svc.route codec ibcd).toProxyServer = [] ∧
       (svc.route codec ibcd).toNeighborhood = [] ∧
       (svc.route codec ibcd).toDispatcher = [] ∧
       errorLogs (svc.route codec ibcd).logs =
         [LogEntry.mk LogLevel.error ("Couldn't decrypt CORES package: " ++ e)] ∧
       (svc.route codec ibcd).panicked = false)) ∧
    (∀ plain e, svc.cryptde.decodeFn ibcd.data = Except.ok plain →
      codec.deLCP plain = Except.error e →
      ((svc.route codec ibcd).toProxyClient = [] ∧
       (svc.route codec ibcd).toProxyServer = [] ∧
       (svc.route codec ibcd).toNeighborhood = [] ∧
       (svc.route codec ibcd).toDispatcher = [] ∧
       errorLogs (svc.route codec ibcd).logs =
         [LogEntry.mk LogLevel.error ("Couldn't deserialize CORES package: " ++ e)] ∧
       (svc.route codec ibcd).panicked = false)) := by
  constructor
  · intro e he
    have hdd : svc.decrypt_and_deserialize_lcp codec ibcd =
        (Except.error (),
         [LogEntry.mk LogLevel.error ("Couldn't decrypt CORES package: " ++ e)]) := by
      simp [RoutingService.decrypt_and_deserialize_lcp, he]
    simp [RoutingService.route, hdd, errorLogs, List.filter]
  · intro plain e hok hde
    have hdd : svc.decrypt_and_deserialize_lcp codec ibcd =
        (Except.error (),
         [LogEntry.mk LogLevel.error ("Couldn't deserialize CORES package: " ++ e)]) := by
      simp [RoutingService.decrypt_and_deserialize_lcp, hok, hde]
    simp [RoutingService.route, hdd, errorLogs, List.filter]

/-- Witness for C4: a concrete undecryptable inbound message. -/
theorem inbound_format_error_handling_witness :
    ((RoutingService.mk wCryptdeDecFail false).route wCodec (wIbcd [5])).toProxyClient = [] ∧
    ((RoutingService.mk wCryptdeDecFail false).route wCodec (wIbcd [5])).toProxyServer = [] ∧
    ((RoutingService.mk wCryptdeDecFail false).route wCodec (wIbcd [5])).toNeighborhood = [] ∧
    ((RoutingService.mk wCryptdeDecFail false).route wCodec (wIbcd [5])).toDispatcher = [] ∧
    errorLogs ((RoutingService.mk wCryptdeDecFail false).route wCodec (wIbcd [5])).logs =
      [LogEntry.mk LogLevel.error
        ("Couldn't decrypt CORES package: " ++ "invalid ciphertext")] ∧
    ((RoutingService.mk wCryptdeDecFail false).route wCodec (wIbcd [5])).panicked = false :=
  (inbound_format_error_handling (RoutingService.mk wCryptdeDecFail false) wCodec
    (wIbcd [5])).1 "invalid ciphertext" rfl

/-! ## C6 -/

/-- C6: Consuming error atomicity.  For every incipient package whose
serialization or encryption fails, `consume` logs the failure at ERROR,
sends nothing to the dispatcher or the hopper sink, and returns without
panicking. -/
theorem consuming_error_atomicity
    (svc : ConsumingService) (codec : Codec) (icp : IncipientCoresPackage)
    (live : LiveCoresPackage) (next_key : Key)
    (hinc : LiveCoresPackage.from_incipient icp svc.cryptde codec =
      Except.ok (live, next_key)) :
    (∀ e, codec.serLCP live = Except.error e →
      ((svc.consume codec icp).toDispatcher = [] ∧
       (svc.consume codec icp).toHopper = [] ∧
       errorLogs (svc.consume codec icp).logs =
         [LogEntry.mk LogLevel.error ("Couldn't serialize package: " ++ e)] ∧
       (svc.consume codec icp).panicked = false)) ∧
    (∀ ser e, codec.serLCP live = Except.ok ser →
      svc.cryptde.encodeFn next_key ser = Except.error e →
      ((svc.consume codec icp).toDispatcher = [] ∧
       (svc.consume codec icp).toHopper = [] ∧
       errorLogs (svc.consume codec icp).logs =
         [LogEntry.mk LogLevel.error ("Couldn't encode package: " ++ e)] ∧
       (svc.consume codec icp).panicked = false)) := by
  constructor
  · intro e hser
    have hse : svc.serialize_and_encrypt_lcp codec live next_key =
        (Except.error (),
         [LogEntry.mk LogLevel.error ("Couldn't serialize package: " ++ e)]) := by
      simp [ConsumingService.serialize_and_encrypt_lcp, hser]
    simp [ConsumingService.consume, hinc, hse, errorLogs, List.filter]
  · intro ser e hser henc
    have hse : svc.serialize_and_encrypt_lcp codec live next_key =
        (Except.error (),
         [LogEntry.mk LogLevel.error ("Couldn't encode package: " ++ e)]) := by
      simp [ConsumingService.serialize_and_encrypt_lcp, hser, henc]
    simp [ConsumingService.consume, hinc, hse, errorLogs, List.filter]

/-- Witness for C6: a concrete serialization failure during consume. -/
theorem consuming_error_atomicity_witness :
    ((ConsumingService.mk wCryptde false).consume wCodecSerFail wIcp).toDispatcher = [] ∧
    ((ConsumingService.mk wCryptde false).consume wCodecSerFail wIcp).toHopper = [] ∧
    errorLogs ((ConsumingService.mk wCryptde false).consume wCodecSerFail wIcp).logs =
      [LogEntry.mk LogLevel.error
        ("Couldn't serialize package: " ++ "serialization failure")] ∧
    ((ConsumingService.mk wCryptde false).consume wCodecSerFail wIcp).panicked = false :=
  (consuming_error_atomicity (ConsumingService.mk wCryptde false) wCodecSerFail wIcp
    (LiveCoresPackage.mk [[0]] [1, 7]) (wKey 1) rfl).1 "serialization failure" rfl

/-! ## C5 -/

/-- C5, behaviour of the code at the failing input: with a crypto engine
whose encryption fails, an admitted intermediate-hop package drives
`RoutingService.route` into the `unimplemented!` crashpoint of
`to_transmit_data_msg` — the process panics, and no ERROR log is emitted,
instead of the log-and-drop the spec requires. -/
theorem routing_relay_encrypt_failure_panics :
    ((RoutingService.mk wCryptdeEncFail false).route wCodec (wIbcd [5])).panicked = true ∧
    errorLogs ((RoutingService.mk wCryptdeEncFail false).route wCodec (wIbcd [5])).logs = [] ∧
    ((RoutingService.mk wCryptdeEncFail false).route wCodec (wIbcd [5])).toDispatcher = [] := by
  refine ⟨?_, ?_, ?_⟩ <;> rfl

/-! ## C7 -/

/-- C7, behaviour of the code at the failing input: a consuming service
constructed with `is_bootstrap_node = true` nevertheless originates
traffic — the `_is_bootstrap_node` field is never consulted (the source
carries a TODO acknowledging the missing check), so `consume` emits a
`TransmitDataMsg` to the dispatcher exactly as a standard node would. -/
theorem bootstrap_consume_emits :
    ((ConsumingService.mk wCryptde true).consume wCodec wIcp).toDispatcher =
      [TransmitDataMsg.mk (Endpoint.Key (wKey 1)) false [1, 9] none] ∧
    ((ConsumingService.mk wCryptde true).consume wCodec wIcp).toDispatcher ≠ [] := by
  have h1 : ((ConsumingService.mk wCryptde true).consume wCodec wIcp).toDispatcher =
      [TransmitDataMsg.mk (Endpoint.Key (wKey 1)) false [1, 9] none] := rfl
  refine ⟨h1, ?_⟩
  rw [h1]
  simp

/-! ## C8 -/

/-- A prefix of masqueraders that all decline the frame is skipped by the
matching loop. -/
lemma tryMasqueraders_append_none (pre ms : List Masquerader) (frame : List Nat)
    (h : ∀ m ∈ pre, m.try_unmask frame = none) :
    tryMasqueraders (pre ++ ms) frame = tryMasqueraders ms frame := by
  induction pre with
  | nil => rfl
  | cons p ps ih =>
    have hp : p.try_unmask frame = none := h p (by simp)
    simp only [List.cons_append, tryMasqueraders, hp]
    exact ih (fun m hm => h m (by simp [hm]))

/-- If every masquerader declines the frame, the matching loop yields
nothing. -/
lemma tryMasqueraders_all_none (ms : List Masquerader) (frame : List Nat)
    (h : ∀ m ∈ ms, m.try_unmask frame = none) :
    tryMasqueraders ms frame = none := by
  induction ms with
  | nil => rfl
  | cons p ps ih =>
    simp only [tryMasqueraders, h p (by simp)]
    exact ih (fun m hm => h m (by simp [hm]))

/-- C8: Discriminator first-match.  When the framer yields a frame, if the
masqueraders before some `mq` all decline it and `mq` unmasks it to `x`,
`take_chunk` returns `Some x` — for every tail of masqueraders after `mq`,
so none of them is consulted; if all masqueraders decline, `take_chunk`
returns `None`.  In both cases the discriminator keeps the framer's
post-`take_frame` state, so the frame is consumed and never returned by a
later call. -/
theorem discriminator_first_match {sigma : Type} (d : Discriminator sigma)
    (frame : List Nat) (s2 : sigma)
    (hframe : d.take_frameF d.framer_state = (some frame, s2)) :
    (∀ pre mq post x, d.masqueraders = pre ++ mq :: post →
      (∀ m ∈ pre, m.try_unmask frame = none) →
      mq.try_unmask frame = some x →
      d.take_chunk = (some x,
        Discriminator.mk s2 d.add_dataF d.take_frameF d.masqueraders)) ∧
    ((∀ m ∈ d.masqueraders, m.try_unmask frame = none) →
      d.take_chunk = (none,
        Discriminator.mk s2 d.add_dataF d.take_frameF d.masqueraders)) := by
  constructor
  · intro pre mq post x hms hpre hk
    unfold Discriminator.take_chunk
    rw [hframe, hms]
    simp only [tryMasqueraders_append_none pre (mq :: post) frame hpre,
      tryMasqueraders, hk]
  · intro hall
    unfold Discriminator.take_chunk
    rw [hframe]
    simp only [tryMasqueraders_all_none d.masqueraders frame hall]

/-- Witness for C8: the second masquerader matches, the third is never
consulted. -/
theorem discriminator_first_match_witness :
    wDisc.take_chunk = (some (Component.ProxyClient, [9]),
      Discriminator.mk [] wDisc.add_dataF wDisc.take_frameF wDisc.masqueraders) :=
  (discriminator_first_match wDisc [7] [] rfl).1 [wMasqNone] wMasqPC [wMasqPS]
    (Component.ProxyClient, [9]) rfl
    (fun m hm => by
      rw [List.mem_singleton] at hm
      rw [hm]
      rfl)
    rfl

/-! ## C9 -/

/-- C9: When the framer has no complete frame available, `take_chunk`
returns `None`, and it does so for every masquerader list — so no
masquerader's `try_unmask` is consulted. -/
theorem take_chunk_no_frame {sigma : Type} (d : Discriminator sigma) (s2 : sigma)
    (hframe : d.take_frameF d.framer_state = (none, s2)) :
    (d.take_chunk).fst = none ∧
    ∀ ms, ((Discriminator.mk d.framer_state d.add_dataF d.take_frameF
      ms).take_chunk).fst = none := by
  constructor
  · unfold Discriminator.take_chunk
    rw [hframe]
  · intro ms
    unfold Discriminator.take_chunk
    simp only []
    rw [hframe]

/-- Witness for C9: a freshly constructed discriminator with no added data
returns `None`. -/
theorem take_chunk_no_frame_witness :
    (wDiscEmpty.take_chunk).fst = none :=
  (take_chunk_no_frame wDiscEmpty [] rfl).1

/-! ## C10 -/

/-- Every transmit message `to_transmit_data_msg` produces carries no
sequence number. -/
lemma to_transmit_data_msg_sequence (svc : RoutingService) (codec : Codec)
    (lcp : LiveCoresPackage) (ld : Bool) (m : TransmitDataMsg)
    (h : svc.to_transmit_data_msg codec lcp ld = some m) :
    m.sequence_number = none := by
  unfold RoutingService.to_transmit_data_msg at h
  repeat' split at h
  all_goals try exact Option.noConfusion h
  all_goals (injection h with h2; subst h2; rfl)

/-- `route_data_internally` never sends to the dispatcher. -/
lemma route_data_internally_dispatcher (svc : RoutingService)
    (component : Component) (sender_ip : IpAddr) (lcp : LiveCoresPackage) :
    (svc.route_data_internally component sender_ip lcp).toDispatcher = [] := by
  unfold RoutingService.route_data_internally
  cases component
  case ProxyServer => cases svc.handle_endpoint Component.ProxyServer lcp <;> rfl
  case ProxyClient => cases svc.handle_endpoint Component.ProxyClient lcp <;> rfl
  case Neighborhood =>
    cases svc.handle_ip_endpoint Component.Neighborhood lcp sender_ip <;> rfl
  case Hopper => rfl

/-- Every message `route_data_externally` sends to the dispatcher carries no
sequence number. -/
lemma route_data_externally_dispatcher (svc : RoutingService) (codec : Codec)
    (lcp : LiveCoresPackage) (ld : Bool) (m : TransmitDataMsg)
    (hm : m ∈ (svc.route_data_externally codec lcp ld).toDispatcher) :
    m.sequence_number = none := by
  unfold RoutingService.route_data_externally at hm
  cases h : svc.to_transmit_data_msg codec lcp ld with
  | none =>
    rw [h] at hm
    simp [RoutingOutput.panic] at hm
  | some tm =>
    rw [h] at hm
    simp at hm
    subst hm
    exact to_transmit_data_msg_sequence svc codec lcp ld m h

/-- Every message `route_data` sends to the dispatcher carries no sequence
number. -/
lemma route_data_dispatcher (svc : RoutingService) (codec : Codec)
    (sender_ip : IpAddr) (next_hop : Hop) (lcp : LiveCoresPackage) (ld : Bool)
    (m : TransmitDataMsg)
    (hm : m ∈ (svc.route_data codec sender_ip next_hop lcp ld).toDispatcher) :
    m.sequence_number = none := by
  unfold RoutingService.route_data at hm
  by_cases hc : next_hop.component = Component.Hopper
  · rw [if_pos hc] at hm
    exact route_data_externally_dispatcher svc codec lcp ld m hm
  · rw [if_neg hc, route_data_internally_dispatcher] at hm
    exact absurd hm (List.not_mem_nil m)

/-- `route` either sends nothing to the dispatcher or exactly what some
`route_data` call sends. -/
lemma route_toDispatcher (svc : RoutingService) (codec : Codec)
    (ibcd : InboundClientData) :
    (svc.route codec ibcd).toDispatcher = [] ∨
    ∃ next_hop live_package,
      (svc.route codec ibcd).toDispatcher =
        (svc.route_data codec ibcd.peer_addr.ip next_hop live_package
          ibcd.last_data).toDispatcher := by
  unfold RoutingService.route
  split
  · left
    rfl
  · split
    · left
      rfl
    · split
      · right
        exact ⟨_, _, rfl⟩
      · left
        rfl

/-- Every message `route` sends to the dispatcher carries no sequence
number. -/
lemma route_dispatcher_sequence (svc : RoutingService) (codec : Codec)
    (ibcd : InboundClientData) :
    ∀ m ∈ (svc.route codec ibcd).toDispatcher, m.sequence_number = none := by
  intro m hm
  rcases route_toDispatcher svc codec ibcd with h | ⟨next_hop, live_package, h⟩
  · rw [h] at hm
    exact absurd hm (List.not_mem_nil m)
  · rw [h] at hm
    exact route_data_dispatcher svc codec ibcd.peer_addr.ip next_hop
      live_package ibcd.last_data m hm

/-- C10: Noninterference.  The downstream messages of `route` are a function
only of the inbound data, peer IP and `last_data` flag: two inbound messages
agreeing on those three fields yield identical outputs — `is_clandestine`,
`reception_port`, `sequence_number` and the peer port are ignored — and
every relayed `TransmitDataMsg` carries `sequence_number = none` regardless
of the inbound sequence number. -/
theorem routing_noninterference
    (svc : RoutingService) (codec : Codec) (i1 i2 : InboundClientData)
    (hdata : i1.data = i2.data)
    (hip : i1.peer_addr.ip = i2.peer_addr.ip)
    (hlast : i1.last_data = i2.last_data) :
    svc.route codec i1 = svc.route codec i2 ∧
    ∀ m ∈ (svc.route codec i1).toDispatcher, m.sequence_number = none := by
  refine ⟨?_, route_dispatcher_sequence svc codec i1⟩
  unfold RoutingService.route RoutingService.decrypt_and_deserialize_lcp
  rw [hdata, hip, hlast]

/-- Witness for C10: two inbound messages differing only in peer port,
reception port, sequence number and clandestine flag route identically. -/
theorem routing_noninterference_witness :
    (RoutingService.mk wCryptde false).route wCodec (wIbcd [5]) =
      (RoutingService.mk wCryptde false).route wCodec wIbcdB :=
  (routing_noninterference (RoutingService.mk wCryptde false) wCodec (wIbcd [5])
    wIbcdB rfl rfl rfl).1
